import Mathlib

/-!
Shallow embedding of the book-catalog crawler (`src/scripts/scrapy.py`) and
of the read-only query layer (`src/api/models.py`, `src/api/api_v1.py`).

Markup is modelled structurally: a `Page` holds what BeautifulSoup would
extract from a listing page (breadcrumb `li` texts, the `title` text, and the
product nodes), and a `ProductNode` holds the sub-nodes each field of the
extractor inspects.  HTTP fetching is modelled as a function from page number
to `Except Unit Page` (`Except.error` = transport failure or non-success
status, i.e. what `raise_for_status` turns into an exception); the site is
deterministic, so the re-fetches performed by `process_url` and `get_section`
return the same result as the controller's fetch of the same URL.

Python string primitives used by the script are re-implemented structurally
over `List Char` (`in` = substring containment, `split` on a one-character
separator, `strip`), and `float()` on a cleaned price string is modelled as a
decimal parse into `Rat` (`none` = `ValueError`).
-/

/-- Substring helper: `isPrefixList n h` is true when `n` is a prefix of `h`. -/
def isPrefixList : List Char → List Char → Bool
  | [], _ => true
  | _ :: _, [] => false
  | a :: as, b :: bs => a == b && isPrefixList as bs

/-- Substring helper: `containsList n h` is true when `n` occurs inside `h`
(Python `n in h`). -/
def containsList (needle : List Char) : List Char → Bool
  | [] => isPrefixList needle []
  | c :: cs => isPrefixList needle (c :: cs) || containsList needle cs

/-- Python `pat in s` for strings. -/
def containsStr (s pat : String) : Bool :=
  containsList pat.toList s.toList

/-- Python `s.split(sep)` for a one-character separator. -/
def splitOnChar (sep : Char) : List Char → List (List Char)
  | [] => [[]]
  | c :: cs =>
    let rest := splitOnChar sep cs
    if c == sep then [] :: rest
    else
      match rest with
      | [] => [[c]]
      | r :: rs => (c :: r) :: rs

/-- Python `s.split(sep)` at the `String` level. -/
def strSplit (sep : Char) (s : String) : List String :=
  (splitOnChar sep s.toList).map String.mk

/-- Python `s.strip()`: drop whitespace at both ends. -/
def stripChars (l : List Char) : List Char :=
  ((l.dropWhile Char.isWhitespace).reverse.dropWhile Char.isWhitespace).reverse

/-- Python `s.strip()` at the `String` level. -/
def strStrip (s : String) : String :=
  String.mk (stripChars s.toList)

/-- Numeric value of a digit string (used by the decimal parse). -/
def natOfDigits (l : List Char) : Nat :=
  l.foldl (fun n c => 10 * n + (c.toNat - 48)) 0

/-- Python `float()` restricted to the shapes a digits-and-dots string can
take: `none` models `ValueError` (empty string, lone dot, several dots). -/
def parseDecimal? (s : String) : Option Rat :=
  match splitOnChar '.' s.toList with
  | [ip] =>
    if ip.length > 0 && ip.all Char.isDigit then some (natOfDigits ip) else none
  | [ip, fp] =>
    if (ip.length + fp.length > 0) && ip.all Char.isDigit && fp.all Char.isDigit then
      some ((natOfDigits ip : Rat) + (natOfDigits fp : Rat) / ((10 : Rat) ^ fp.length))
    else none
  | _ => none

/-- The `a` tag inside a product's `h3` (`title` attribute, visible text,
`href`). -/
structure LinkTag where
  titleAttr : Option String
  text : String
  href : String
  deriving Repr, DecidableEq

/-- One `article.product_pod` node, holding exactly the sub-nodes
`WebCrawler.process_url` inspects.  `titleLink = none` models a missing `h3`
or a missing `a` inside it (both make `process_url` raise `AttributeError`);
`imageContainer = none` models a missing `div.image_container` (again an
`AttributeError`), while `imageContainer = some none` models a container
without an `img` (handled, falls back to `""`). -/
structure ProductNode where
  titleLink : Option LinkTag
  priceText : Option String
  ratingClasses : Option (List String)
  imageContainer : Option (Option String)
  instockText : Option String
  outofstock : Bool
  deriving Repr, DecidableEq

/-- A parsed listing page: breadcrumb `li` texts (already stripped, as
`get_text(strip=True)` returns them), the `title` element's text, and the
product nodes. -/
structure Page where
  breadcrumb : Option (List String)
  pageTitle : Option String
  products : List ProductNode
  deriving Repr, DecidableEq

/-- One extracted record (`item_data` in `process_url`). -/
structure Item where
  id : Nat
  title : String
  price : Rat
  rating : Nat
  availability : String
  category : String
  image_url : String
  book_url : String
  deriving Repr, DecidableEq

/-- The crawler's fixed base URL (`target_url`). -/
def defaultTarget : String := "https://books.toscrape.com/"

/-- Shallow model of `urllib.parse.urljoin`: an absolute URL wins, a relative
one is resolved against the base. -/
def urljoin (base url : String) : String :=
  if url.startsWith "http://" || url.startsWith "https://" then url else base ++ url

/-- The ordered rating table of `WebCrawler.parse_rating` (Python dicts keep
insertion order). -/
def ratingTable : List (String × Nat) :=
  [("One", 1), ("Two", 2), ("Three", 3), ("Four", 4), ("Five", 5)]

/-- The loop of `parse_rating`: first table key that occurs as a substring of
the class name wins. -/
def parseRatingAux (class_name : String) : List (String × Nat) → Nat
  | [] => 0
  | (k, v) :: rest =>
    if containsStr class_name k then v else parseRatingAux class_name rest

/-- `WebCrawler.parse_rating`: map a CSS class name to a rating, 0 when no
ordinal word occurs in it. -/
def parse_rating (class_name : String) : Nat :=
  parseRatingAux class_name ratingTable

/-- Character filter of `WebCrawler.format_price`: `re.sub` removes every
character that is neither a decimal digit nor a dot. -/
def cleanPrice (raw : String) : String :=
  String.mk (raw.toList.filter fun c => c.isDigit || c == '.')

/-- `WebCrawler.format_price`: strip non-digit-non-dot characters, then
`float()`; `none` models the `ValueError` Python raises on a malformed
remainder. -/
def format_price (raw : String) : Option Rat :=
  parseDecimal? (cleanPrice raw)

/-- Title fallback of `get_section`: the `title` element, when it contains the
marker phrase and a `|`, yields the stripped part before the first `|`. -/
def titleFallback (doc : Page) : String :=
  match doc.pageTitle with
  | none => "General"
  | some t =>
    if containsStr t "Books to Scrape" then
      let parts := strSplit '|' t
      if parts.length > 1 then strStrip (parts.headD "") else "General"
    else "General"

/-- `WebCrawler.get_section` applied to the (deterministic) fetch result of
the page URL: breadcrumb with more than one entry → its last entry; else the
title fallback; any fetch failure → `"General"` (the `except` branch). -/
def get_section (fetched : Except Unit Page) : String :=
  match fetched with
  | .error _ => "General"
  | .ok doc =>
    match doc.breadcrumb with
    | some sections =>
      if sections.length > 1 then sections.getLastD "" else titleFallback doc
    | none => titleFallback doc

/-- Title of one product: the `a` tag's `title` attribute, else its stripped
visible text. -/
def titleOf (link : LinkTag) : String :=
  match link.titleAttr with
  | some t => t
  | none => strStrip link.text

/-- Price of one product: `0.0` when `p.price_color` is absent, else
`format_price` of its text (`none` = exception). -/
def priceOf (p : ProductNode) : Option Rat :=
  match p.priceText with
  | none => some 0
  | some raw => format_price raw

/-- The rating loop of `process_url`: `parse_rating` of the first class that
differs from `"star-rating"`; 0 when there is none. -/
def firstNonMarker : List String → Nat
  | [] => 0
  | c :: rest => if c == "star-rating" then firstNonMarker rest else parse_rating c

/-- Rating of one product: 0 when the `p.star-rating` node is absent, else
the rating loop over its class list. -/
def ratingOf (p : ProductNode) : Nat :=
  match p.ratingClasses with
  | none => 0
  | some classes => firstNonMarker classes

/-- Image URL of one product, given the present container's optional `img`
`src`: absent `img` → `""`. -/
def imgOf (base : String) (img : Option String) : String :=
  match img with
  | some src => urljoin base src
  | none => ""

/-- Availability of one product: in-stock marker text stripped, else the
literal `"Out of stock"` when an out-of-stock marker exists, else the default
`"In stock"`. -/
def stockOf (p : ProductNode) : String :=
  match p.instockText with
  | some t => strStrip t
  | none => if p.outofstock then "Out of stock" else "In stock"

/-- The body of `process_url`'s `for` loop for one product node: `none`
models the `AttributeError`/`ValueError` cases (missing `h3`/`a`, missing
`div.image_container`, malformed price text) that escape to the page-level
`except`. -/
def buildItem (base sec : String) (nextId : Nat) (p : ProductNode) :
    Option Item :=
  match p.titleLink with
  | none => none
  | some link =>
    match priceOf p with
    | none => none
    | some price =>
      match p.imageContainer with
      | none => none
      | some img =>
        some
          { id := nextId
            title := titleOf link
            price := price
            rating := ratingOf p
            availability := stockOf p
            category := sec
            image_url := imgOf base img
            book_url := urljoin base link.href }

/-- The `for` loop of `process_url`: each item gets `id = len(items) + 1` and
is appended; an exception while building one item ends the loop (the
page-level `except` catches it), keeping the items appended so far. -/
def processProducts (base sec : String) :
    List ProductNode → List Item → List Item
  | [], items => items
  | p :: rest, items =>
    match buildItem base sec (items.length + 1) p with
    | none => items
    | some item => processProducts base sec rest (items ++ [item])

/-- `WebCrawler.process_url` on the deterministic fetch result of a page URL:
a failed fetch is caught and leaves the accumulator unchanged; otherwise the
page's section is resolved once and every product is processed. -/
def process_url (base : String) (fetched : Except Unit Page)
    (items : List Item) : List Item :=
  match fetched with
  | .error _ => items
  | .ok doc => processProducts base (get_section fetched) doc.products items

/-- How the `while True` loop of `WebCrawler.crawl` ended: the zero-products
`break` (clean completion), the fetch-failure `break` (abort), or the model's
fuel running out (the real loop would still be running). -/
inductive CrawlState where
  | done
  | aborted
  | outOfFuel
  deriving Repr, DecidableEq

/-- Outcome of a crawl: the page numbers the controller requested in order,
the accumulated items, and how the loop ended. -/
structure CrawlResult where
  visited : List Nat
  items : List Item
  state : CrawlState
  deriving Repr, DecidableEq

/-- The `while True` loop of `WebCrawler.crawl`, fuelled so that it is a
total function: fetch page `n`; a fetch failure breaks to `aborted`; an empty
product list breaks to `done`; otherwise `process_url` runs on the same URL
(the site is deterministic, so its re-fetch sees the same document) and the
loop moves to page `n + 1`. -/
def crawlFrom (base : String) (site : Nat → Except Unit Page) :
    Nat → Nat → List Item → List Nat → CrawlResult
  | 0, _, items, visited => ⟨visited, items, .outOfFuel⟩
  | fuel + 1, n, items, visited =>
    match site n with
    | .error _ => ⟨visited ++ [n], items, .aborted⟩
    | .ok doc =>
      if doc.products.isEmpty then ⟨visited ++ [n], items, .done⟩
      else
        crawlFrom base site fuel (n + 1)
          (process_url base (Except.ok doc) items) (visited ++ [n])

/-- `WebCrawler.crawl`: start at page 1 with an empty accumulator. -/
def crawl (base : String) (site : Nat → Except Unit Page) (fuel : Nat) :
    CrawlResult :=
  crawlFrom base site fuel 1 [] []

/-- One CSV row of the export, `id,title,price,rating,availability,category,image_url,book_url`. -/
def itemRow (it : Item) : String :=
  toString it.id ++ "," ++ it.title ++ "," ++ toString it.price ++ "," ++
    toString it.rating ++ "," ++ it.availability ++ "," ++ it.category ++ "," ++
    it.image_url ++ "," ++ it.book_url

/-- The fixed CSV header written by `export_data` (the `item_data` key order). -/
def csvHeader : String :=
  "id,title,price,rating,availability,category,image_url,book_url"

/-- `WebCrawler.export_data`: with no items it warns and writes nothing
(`none`); otherwise it overwrites the output file with the serialized rows
(`some` bytes).  The serialization abstracts pandas `to_csv`, which is a
deterministic function of the item list. -/
def export_data (items : List Item) : Option String :=
  if items.isEmpty then none
  else some (String.intercalate "\x0a" (csvHeader :: items.map itemRow))

/-- Outcome of one `run()`: the crawl result plus what `export_data` wrote. -/
structure RunResult where
  visited : List Nat
  items : List Item
  state : CrawlState
  output : Option String
  deriving Repr, DecidableEq

/-- `run()` in `scrapy.py`: a fresh crawler (empty accumulator), `crawl`,
then `export_data`, against a deterministic site. -/
def runPipeline (site : Nat → Except Unit Page) (fuel : Nat) : RunResult :=
  let r := crawl defaultTarget site fuel
  ⟨r.visited, r.items, r.state, export_data r.items⟩

/-- Reference accumulator: the items the crawler gathers from `count`
consecutive pages starting at page `p` (each processed exactly as
`process_url` does).  Used to state which items a run has accumulated. -/
def accumulate (base : String) (site : Nat → Except Unit Page) :
    Nat → Nat → List Item → List Item
  | 0, _, items => items
  | count + 1, p, items =>
    accumulate base site count (p + 1) (process_url base (site p) items)

/-- The `BookOut` pydantic response model of `src/api/models.py`
(`rating` constrained by `ge=1, le=5`). -/
structure BookOut where
  id : Nat
  title : String
  price : Rat
  rating : Nat
  availability : String
  category : String
  image_url : Option String
  book_url : Option String
  deriving Repr, DecidableEq

/-- Constructing `BookOut(**row)`: pydantic validates `1 <= rating <= 5` and
raises `ValidationError` otherwise (modelled as `Except.error`). -/
def mkBookOut (it : Item) : Except String BookOut :=
  if 1 ≤ it.rating ∧ it.rating ≤ 5 then
    .ok ⟨it.id, it.title, it.price, it.rating, it.availability, it.category,
      some it.image_url, some it.book_url⟩
  else .error "ValidationError"

/-- The `get_book` endpoint of `src/api/api_v1.py` over the loaded dataset
rows: no row with the requested id → 404; otherwise `BookOut(**row)`, whose
validation failure escapes as an error instead of a response. -/
def get_book (rows : List Item) (book_id : Nat) : Except String BookOut :=
  match rows.find? (fun r => r.id == book_id) with
  | none => .error "404 Book not found"
  | some row => mkBookOut row

/-- The predicate tested by `cleanPrice`: keep decimal digits and the dot. -/
def keepPriceChar (c : Char) : Bool :=
  c.isDigit || c == '.'

lemma cleanPrice_toList (raw : String) :
    (cleanPrice raw).toList = raw.toList.filter keepPriceChar := rfl

/-- C4.  Price parsing strips every character that is neither a decimal digit
nor `'.'` and parses the remainder as a decimal number: `"£51.77"` yields
`51.77`, and a comma thousands separator is removed (`"£1,234.56"` yields
`1234.56`); in general the cleaned text is a subsequence of the raw text in
which exactly the digit-or-dot occurrences of every character survive. -/
theorem C4_price_stripping :
    cleanPrice "£51.77" = "51.77" ∧
    format_price "£51.77" = some (5177 / 100) ∧
    cleanPrice "£1,234.56" = "1234.56" ∧
    format_price "£1,234.56" = some (123456 / 100) ∧
    (∀ raw : String, List.Sublist (cleanPrice raw).toList raw.toList) ∧
    (∀ raw : String, (cleanPrice raw).toList.all keepPriceChar = true) ∧
    (∀ (raw : String) (c : Char),
      (cleanPrice raw).toList.count c =
        if keepPriceChar c then raw.toList.count c else 0) := by
  refine ⟨by decide, ?_, by decide, ?_, ?_, ?_, ?_⟩
  · have h : cleanPrice "£51.77" = "51.77" := by decide
    rw [format_price, h]
    simp +decide [parseDecimal?, natOfDigits, splitOnChar]
    norm_num
  · have h : cleanPrice "£1,234.56" = "1234.56" := by decide
    rw [format_price, h]
    simp +decide [parseDecimal?, natOfDigits, splitOnChar]
    norm_num
  · intro raw
    rw [cleanPrice_toList]
    exact List.filter_sublist _
  · intro raw
    rw [cleanPrice_toList, List.all_eq_true]
    intro c hc
    exact (List.mem_filter.mp hc).2
  · intro raw c
    rw [cleanPrice_toList]
    by_cases h : keepPriceChar c = true
    · rw [if_pos h, List.count_filter h]
    · rw [if_neg h, List.count_eq_zero]
      intro hc
      exact h (List.mem_filter.mp hc).2

/-- C5.  Category resolution follows the priority chain with first success
winning: a breadcrumb with more than one entry yields its last entry's text;
otherwise a page title containing the marker phrase and a `|` yields the
stripped part before the first `|`; otherwise `"General"`; in particular
`["Home","Poetry"]` yields `"Poetry"` and title `"Foo | Books to Scrape"`
yields `"Foo"`. -/
theorem C5_category_chain :
    get_section (Except.ok ⟨some ["Home", "Poetry"], none, []⟩) = "Poetry" ∧
    get_section (Except.ok ⟨none, some "Foo | Books to Scrape", []⟩) = "Foo" ∧
    get_section (Except.ok ⟨none, none, []⟩) = "General" ∧
    (∀ (doc : Page) (bc : List String), doc.breadcrumb = some bc →
      bc.length > 1 → get_section (Except.ok doc) = bc.getLastD "") ∧
    (∀ (doc : Page) (t : String),
      (doc.breadcrumb = none ∨ ∃ bc, doc.breadcrumb = some bc ∧ bc.length ≤ 1) →
      doc.pageTitle = some t → containsStr t "Books to Scrape" = true →
      (strSplit '|' t).length > 1 →
      get_section (Except.ok doc) = strStrip ((strSplit '|' t).headD "")) ∧
    (∀ doc : Page, doc.breadcrumb = none → doc.pageTitle = none →
      get_section (Except.ok doc) = "General") := by
  refine ⟨by decide, by decide, by decide, ?_, ?_, ?_⟩
  · intro doc bc hbc hlen
    simp [get_section, hbc, hlen]
  · intro doc t hbc ht hmark hsplit
    have hfb : titleFallback doc = strStrip ((strSplit '|' t).headD "") := by
      simp [titleFallback, ht, hmark, hsplit]
    rcases hbc with h | ⟨bc, hbc, hle⟩
    · simp [get_section, h, hfb]
    · have : ¬ bc.length > 1 := by omega
      simp [get_section, hbc, this, hfb]
  · intro doc hbc ht
    simp [get_section, hbc, titleFallback, ht]

/-- C5 witness: the general conjuncts applied at concrete pages. -/
theorem C5_category_chain_witness :
    get_section (Except.ok ⟨some ["Home", "Travel", "Mystery"], none, []⟩) = "Mystery" ∧
    get_section (Except.ok ⟨some ["Home"], some "Bar | Books to Scrape", []⟩) =
      strStrip ((strSplit '|' "Bar | Books to Scrape").headD "") ∧
    get_section (Except.ok ⟨none, none, [⟨none, none, none, none, none, false⟩]⟩) = "General" := by
  refine ⟨?_, ?_, ?_⟩
  · exact C5_category_chain.2.2.2.1 ⟨some ["Home", "Travel", "Mystery"], none, []⟩
      ["Home", "Travel", "Mystery"] rfl (by decide)
  · exact C5_category_chain.2.2.2.2.1 ⟨some ["Home"], some "Bar | Books to Scrape", []⟩
      "Bar | Books to Scrape" (Or.inr ⟨["Home"], rfl, by decide⟩) rfl (by decide) (by decide)
  · exact C5_category_chain.2.2.2.2.2 ⟨none, none, [⟨none, none, none, none, none, false⟩]⟩
      rfl rfl

/-- C6.  The category resolver never propagates an error: it is a total
function of the fetch outcome, and every failed fetch (the `except` branch of
`get_section`, which also covers parse failures) yields the sentinel
`"General"`. -/
theorem C6_resolver_never_raises (e : Unit) :
    get_section (Except.error e) = "General" := rfl

/-- A rating marker whose class list holds an unmapped class before the
ordinal word: `class="star-rating x Three"`. -/
def oddRatingClasses : List String := ["star-rating", "x", "Three"]

/-- C3 counterexample.  On the class list `["star-rating", "x", "Three"]`
exactly one ordinal token occurs as a substring (namely `"Three"`, mapped to
3), yet the extracted rating is 0, not 3: the code only applies the table to
the first class that differs from `"star-rating"`. -/
theorem C3_counterexample :
    (ratingTable.filter fun kv =>
      oddRatingClasses.any fun c => containsStr c kv.1).length = 1 ∧
    (ratingTable.find? fun kv =>
      oddRatingClasses.any fun c => containsStr c kv.1) = some ("Three", 3) ∧
    ratingOf ⟨none, none, some oddRatingClasses, none, none, false⟩ = 0 ∧
    ratingOf ⟨none, none, some oddRatingClasses, none, none, false⟩ ≠ 3 := by
  decide

lemma parseRatingAux_eq_find (c : String) :
    ∀ tbl : List (String × Nat),
      parseRatingAux c tbl =
        ((tbl.find? fun kv => containsStr c kv.1).map Prod.snd).getD 0
  | [] => rfl
  | (k, v) :: rest => by
    by_cases h : containsStr c k = true
    · simp [parseRatingAux, List.find?_cons, h]
    · have hb : containsStr c k = false := by
        cases hkv : containsStr c k
        · rfl
        · exact absurd hkv h
      simp [parseRatingAux, List.find?_cons, hb, parseRatingAux_eq_find c rest]

/-- C3 amended.  The rating is `parse_rating` of the first class in the
marker's class list that differs from `"star-rating"` (0 when there is none
or the marker is absent); `parse_rating` maps a single class name to the
value of the first table token, in fixed table order `One..Five`, occurring
in it as a substring, and to 0 when no token occurs; consequently a class
list in which no token occurs anywhere yields rating 0. -/
theorem C3_amended_rating :
    (∀ p : ProductNode, p.ratingClasses = none → ratingOf p = 0) ∧
    (∀ (p : ProductNode) (cs : List String), p.ratingClasses = some cs →
      ratingOf p = firstNonMarker cs) ∧
    (∀ (pre : List String) (c : String) (post : List String),
      (∀ x ∈ pre, x = "star-rating") → c ≠ "star-rating" →
      firstNonMarker (pre ++ c :: post) = parse_rating c) ∧
    (∀ c : String, parse_rating c =
      ((ratingTable.find? fun kv => containsStr c kv.1).map Prod.snd).getD 0) ∧
    (∀ l : List String,
      (∀ c ∈ l, (ratingTable.find? fun kv => containsStr c kv.1) = none) →
      firstNonMarker l = 0) := by
  refine ⟨?_, ?_, ?_, ?_, ?_⟩
  · intro p hp
    simp [ratingOf, hp]
  · intro p cs hp
    simp [ratingOf, hp]
  · intro pre c post hpre hc
    induction pre with
    | nil =>
      have : (c == "star-rating") = false := by
        cases h : c == "star-rating"
        · rfl
        · exact absurd (by simpa using h) hc
      simp [firstNonMarker, this]
    | cons x xs ih =>
      have hx : x = "star-rating" := hpre x (by simp)
      have : (x == "star-rating") = true := by simp [hx]
      simp only [List.cons_append, firstNonMarker, this, if_true]
      exact ih fun y hy => hpre y (by simp [hy])
  · intro c
    exact parseRatingAux_eq_find c ratingTable
  · intro l hl
    induction l with
    | nil => rfl
    | cons c cs ih =>
      have hc : parse_rating c = 0 := by
        rw [parse_rating, parseRatingAux_eq_find c ratingTable, hl c (by simp)]
        rfl
      by_cases h : (c == "star-rating") = true
      · simp only [firstNonMarker, h, if_true]
        exact ih fun y hy => hl y (by simp [hy])
      · have hb : (c == "star-rating") = false := by
          cases hkv : c == "star-rating"
          · rfl
          · exact absurd hkv h
        simp [firstNonMarker, hb, hc]

/-- C3 amended witness: the general conjuncts applied at concrete inputs. -/
theorem C3_amended_rating_witness :
    ratingOf ⟨none, none, none, none, none, false⟩ = 0 ∧
    ratingOf ⟨none, none, some ["star-rating", "Four"], none, none, false⟩ =
      firstNonMarker ["star-rating", "Four"] ∧
    firstNonMarker ["star-rating", "Four"] = parse_rating "Four" ∧
    parse_rating "Four" =
      ((ratingTable.find? fun kv => containsStr "Four" kv.1).map Prod.snd).getD 0 ∧
    firstNonMarker ["star-rating", "abc"] = 0 := by
  refine ⟨?_, ?_, ?_, ?_, ?_⟩
  · exact C3_amended_rating.1 ⟨none, none, none, none, none, false⟩ rfl
  · exact C3_amended_rating.2.1 ⟨none, none, some ["star-rating", "Four"], none, none, false⟩
      ["star-rating", "Four"] rfl
  · exact C3_amended_rating.2.2.1 ["star-rating"] "Four" []
      (by intro x hx; simpa using hx) (by decide)
  · exact C3_amended_rating.2.2.2.1 "Four"
  · exact C3_amended_rating.2.2.2.2 ["star-rating", "abc"] (by decide)

/-- A fully well-formed product node. -/
def goodProduct : ProductNode :=
  ⟨some ⟨some "B", "B", "b.html"⟩, none, some ["star-rating", "Two"],
    some (some "img/b.jpg"), some "In stock", false⟩

/-- A product node whose `div.image_container` is absent (every other
sub-node present). -/
def noImageDivProduct : ProductNode :=
  ⟨some ⟨some "A", "A", "a.html"⟩, none, some ["star-rating", "One"],
    none, some "In stock", false⟩

/-- C2 counterexample.  A page whose first product node lacks only its image
container, followed by a fully well-formed product node: the loop builds no
item at all (the missing `div.image_container` raises an `AttributeError`
caught at page level), so the affected item is dropped and the well-formed
item that follows it is dropped too — while the follower alone would have
produced one item. -/
theorem C2_counterexample :
    processProducts defaultTarget "Books" [noImageDivProduct, goodProduct] [] = [] ∧
    (processProducts defaultTarget "Books" [goodProduct] []).length = 1 := by
  constructor
  · rfl
  · rfl

/-- C2 amended.  Absence of the price node, of the rating marker, of the
stock markers, or of the `img` inside a present image container makes the
field fall back to its default (0.0, 0, `"In stock"` / `"Out of stock"`,
`""`) and the item is still built and appended; but absence of the title
link (`h3`/`a`) or of the `div.image_container` itself raises an exception
that is caught at page level, dropping that item and every item after it on
the page (items already appended are kept), and a malformed price text does
the same. -/
theorem C2_amended_field_misses :
    (∀ p : ProductNode, p.priceText = none → priceOf p = some 0) ∧
    (∀ p : ProductNode, p.ratingClasses = none → ratingOf p = 0) ∧
    (∀ p : ProductNode, p.instockText = none → p.outofstock = false →
      stockOf p = "In stock") ∧
    (∀ p : ProductNode, p.instockText = none → p.outofstock = true →
      stockOf p = "Out of stock") ∧
    (∀ base : String, imgOf base none = "") ∧
    (∀ (base sec : String) (k : Nat) (p : ProductNode) (link : LinkTag)
      (img : Option String) (pr : Rat),
      p.titleLink = some link → p.imageContainer = some img →
      priceOf p = some pr →
      buildItem base sec k p =
        some ⟨k, titleOf link, pr, ratingOf p, stockOf p, sec,
          imgOf base img, urljoin base link.href⟩) ∧
    (∀ (base sec : String) (p : ProductNode) (link : LinkTag)
      (img : Option String) (pr : Rat) (rest : List ProductNode)
      (items : List Item),
      p.titleLink = some link → p.imageContainer = some img →
      priceOf p = some pr →
      processProducts base sec (p :: rest) items =
        processProducts base sec rest
          (items ++ [⟨items.length + 1, titleOf link, pr, ratingOf p, stockOf p,
            sec, imgOf base img, urljoin base link.href⟩])) ∧
    (∀ (base sec : String) (p : ProductNode) (rest : List ProductNode)
      (items : List Item), p.titleLink = none →
      processProducts base sec (p :: rest) items = items) ∧
    (∀ (base sec : String) (p : ProductNode) (rest : List ProductNode)
      (items : List Item), p.imageContainer = none →
      processProducts base sec (p :: rest) items = items) ∧
    (∀ (base sec : String) (p : ProductNode) (rest : List ProductNode)
      (items : List Item), priceOf p = none →
      processProducts base sec (p :: rest) items = items) := by
  refine ⟨?_, ?_, ?_, ?_, ?_, ?_, ?_, ?_, ?_, ?_⟩
  · intro p hp; simp [priceOf, hp]
  · intro p hp; simp [ratingOf, hp]
  · intro p hs ho; simp [stockOf, hs, ho]
  · intro p hs ho; simp [stockOf, hs, ho]
  · intro base; rfl
  · intro base sec k p link img pr hl hi hp
    simp [buildItem, hl, hi, hp]
  · intro base sec p link img pr rest items hl hi hp
    simp [processProducts, buildItem, hl, hi, hp]
  · intro base sec p rest items hl
    simp [processProducts, buildItem, hl]
  · intro base sec p rest items hi
    cases hl : p.titleLink with
    | none => simp [processProducts, buildItem, hl]
    | some link =>
      cases hp : priceOf p with
      | none => simp [processProducts, buildItem, hl, hp]
      | some pr => simp [processProducts, buildItem, hl, hp, hi]
  · intro base sec p rest items hp
    cases hl : p.titleLink with
    | none => simp [processProducts, buildItem, hl]
    | some link => simp [processProducts, buildItem, hl, hp]

/-- C2 amended witness: the defaults and the abort behavior at concrete
product nodes. -/
theorem C2_amended_field_misses_witness :
    priceOf noImageDivProduct = some 0 ∧
    buildItem defaultTarget "Books" 1 goodProduct =
      some ⟨1, titleOf ⟨some "B", "B", "b.html"⟩, 0,
        ratingOf goodProduct, stockOf goodProduct, "Books",
        imgOf defaultTarget (some "img/b.jpg"),
        urljoin defaultTarget "b.html"⟩ ∧
    processProducts defaultTarget "Books" [noImageDivProduct, goodProduct] [] = [] := by
  refine ⟨?_, ?_, ?_⟩
  · exact C2_amended_field_misses.1 noImageDivProduct rfl
  · exact C2_amended_field_misses.2.2.2.2.2.1 defaultTarget "Books" 1 goodProduct
      ⟨some "B", "B", "b.html"⟩ (some "img/b.jpg") 0 rfl rfl rfl
  · exact C2_amended_field_misses.2.2.2.2.2.2.2.2.1 defaultTarget "Books"
      noImageDivProduct [goodProduct] [] rfl

/-- A product node whose rating marker carries no recognized ordinal class. -/
def unratedProduct : ProductNode :=
  ⟨some ⟨some "T", "T", "t.html"⟩, none, some ["star-rating"], some none,
    none, false⟩

/-- C10.  The crawler can emit records with rating 0 (unrecognized marker),
but `BookOut` requires `1 <= rating <= 5`, so for every dataset row with
rating 0 the `BookOut(**row)` construction fails validation and `get_book`
cannot return that row as a response. -/
theorem C10_rating_zero_unservable :
    parse_rating "star-rating" = 0 ∧
    buildItem defaultTarget "General" 1 unratedProduct =
      some ⟨1, "T", 0, 0, "In stock", "General", "",
        "https://books.toscrape.com/t.html"⟩ ∧
    (∀ it : Item, it.rating = 0 → mkBookOut it = .error "ValidationError") ∧
    (∀ (rows : List Item) (bid : Nat) (row : Item),
      rows.find? (fun r => r.id == bid) = some row → row.rating = 0 →
      get_book rows bid = .error "ValidationError") := by
  refine ⟨by decide, rfl, ?_, ?_⟩
  · intro it h
    have : ¬ (1 ≤ it.rating ∧ it.rating ≤ 5) := by omega
    simp [mkBookOut, this]
  · intro rows bid row hfind h
    have : ¬ (1 ≤ row.rating ∧ row.rating ≤ 5) := by omega
    simp [get_book, hfind, mkBookOut, this]

/-- C10 witness: a concrete one-row dataset whose row has rating 0. -/
theorem C10_rating_zero_unservable_witness :
    mkBookOut ⟨1, "T", 0, 0, "In stock", "General", "", ""⟩ =
      .error "ValidationError" ∧
    get_book [⟨1, "T", 0, 0, "In stock", "General", "", ""⟩] 1 =
      .error "ValidationError" := by
  constructor
  · exact C10_rating_zero_unservable.2.2.1 ⟨1, "T", 0, 0, "In stock", "General", "", ""⟩ rfl
  · exact C10_rating_zero_unservable.2.2.2 [⟨1, "T", 0, 0, "In stock", "General", "", ""⟩] 1
      ⟨1, "T", 0, 0, "In stock", "General", "", ""⟩ rfl rfl

/-- C9.  The pipeline is deterministic in its input pages: two runs against
pointwise-equal (unchanged) sites produce the same run result, in particular
byte-identical output files with the same ids in the same order. -/
theorem C9_deterministic (site1 site2 : Nat → Except Unit Page) (fuel : Nat)
    (h : ∀ n, site1 n = site2 n) :
    runPipeline site1 fuel = runPipeline site2 fuel ∧
    (runPipeline site1 fuel).output = (runPipeline site2 fuel).output ∧
    (runPipeline site1 fuel).items.map Item.id =
      (runPipeline site2 fuel).items.map Item.id := by
  have hsite : site1 = site2 := funext h
  subst hsite
  exact ⟨rfl, rfl, rfl⟩

/-- C9 witness: the theorem applied to two copies of a concrete fixture. -/
theorem C9_deterministic_witness :
    runPipeline (fun _ => Except.ok ⟨none, none, []⟩) 3 =
      runPipeline (fun _ => Except.ok ⟨none, none, []⟩) 3 ∧
    (runPipeline (fun _ => Except.ok ⟨none, none, []⟩) 3).output =
      (runPipeline (fun _ => Except.ok ⟨none, none, []⟩) 3).output ∧
    (runPipeline (fun _ => Except.ok ⟨none, none, []⟩) 3).items.map Item.id =
      (runPipeline (fun _ => Except.ok ⟨none, none, []⟩) 3).items.map Item.id :=
  C9_deterministic (fun _ => Except.ok ⟨none, none, []⟩)
    (fun _ => Except.ok ⟨none, none, []⟩) 3 (fun _ => rfl)

lemma buildItem_id (base sec : String) (k : Nat) (p : ProductNode) (it : Item)
    (h : buildItem base sec k p = some it) : it.id = k := by
  cases hl : p.titleLink with
  | none => simp [buildItem, hl] at h
  | some link =>
    cases hp : priceOf p with
    | none => simp [buildItem, hl, hp] at h
    | some pr =>
      cases hi : p.imageContainer with
      | none => simp [buildItem, hl, hp, hi] at h
      | some img =>
        simp [buildItem, hl, hp, hi] at h
        rw [← h]

lemma processProducts_ids (base sec : String) :
    ∀ (ps : List ProductNode) (items : List Item),
      items.map Item.id = List.range' 1 items.length →
      (processProducts base sec ps items).map Item.id =
        List.range' 1 (processProducts base sec ps items).length
  | [], _, h => h
  | p :: rest, items, h => by
    cases hb : buildItem base sec (items.length + 1) p with
    | none => simpa [processProducts, hb] using h
    | some it =>
      have hid := buildItem_id base sec (items.length + 1) p it hb
      have hnext : (items ++ [it]).map Item.id =
          List.range' 1 (items ++ [it]).length := by
        rw [List.map_append, h, List.length_append]
        simp [hid, List.range'_1_concat, Nat.add_comm]
      simpa [processProducts, hb] using
        processProducts_ids base sec rest (items ++ [it]) hnext

lemma process_url_ids (base : String) (fetched : Except Unit Page)
    (items : List Item)
    (h : items.map Item.id = List.range' 1 items.length) :
    (process_url base fetched items).map Item.id =
      List.range' 1 (process_url base fetched items).length := by
  cases fetched with
  | error e => exact h
  | ok doc => exact processProducts_ids base _ doc.products items h

lemma crawlFrom_ids (base : String) (site : Nat → Except Unit Page) :
    ∀ (fuel n : Nat) (items : List Item) (visited : List Nat),
      items.map Item.id = List.range' 1 items.length →
      (crawlFrom base site fuel n items visited).items.map Item.id =
        List.range' 1 (crawlFrom base site fuel n items visited).items.length
  | 0, _, _, _, h => h
  | fuel + 1, n, items, visited, h => by
    cases hs : site n with
    | error e => simpa [crawlFrom, hs] using h
    | ok doc =>
      cases hp : doc.products.isEmpty with
      | true => simpa [crawlFrom, hs, hp] using h
      | false =>
        simpa [crawlFrom, hs, hp] using
          crawlFrom_ids base site fuel (n + 1)
            (process_url base (Except.ok doc) items) (visited ++ [n])
            (process_url_ids base (Except.ok doc) items h)

/-- C1.  In every run the emitted `id` values are exactly `1..N` for N the
total number of accumulated items, strictly increasing in emission order
with no gaps or duplicates (`List.range' 1 N`), because the record builder
stamps each item with the requested id — which the loop always requests as
1 + the number of items already accumulated. -/
theorem C1_ids_contiguous (site : Nat → Except Unit Page) (fuel : Nat) :
    (runPipeline site fuel).items.map Item.id =
      List.range' 1 (runPipeline site fuel).items.length ∧
    (∀ (base : String), (crawl base site fuel).items.map Item.id =
      List.range' 1 (crawl base site fuel).items.length) ∧
    (∀ (base sec : String) (k : Nat) (p : ProductNode),
      (buildItem base sec k p).map Item.id =
        (buildItem base sec k p).map fun _ => k) := by
  refine ⟨?_, ?_, ?_⟩
  · exact crawlFrom_ids defaultTarget site fuel 1 [] [] rfl
  · intro base
    exact crawlFrom_ids base site fuel 1 [] [] rfl
  · intro base sec k p
    cases hb : buildItem base sec k p with
    | none => rfl
    | some it => simp [buildItem_id base sec k p it hb]

/-- A listing page that keeps the pagination loop going: fetched
successfully and holding at least one product node. -/
def goodListing (r : Except Unit Page) : Prop :=
  ∃ doc, r = Except.ok doc ∧ doc.products ≠ []

lemma export_data_of_ne_nil (items : List Item) (h : items ≠ []) :
    ∃ bytes, export_data items = some bytes := by
  refine ⟨String.intercalate "\x0a" (csvHeader :: items.map itemRow), ?_⟩
  have : items.isEmpty = false := by
    cases items
    · exact absurd rfl h
    · rfl
  simp [export_data, this]

lemma crawlFrom_reach (base : String) (site : Nat → Except Unit Page) :
    ∀ (m p fuel : Nat) (items : List Item) (visited : List Nat),
      (∀ k, p ≤ k → k < p + m → goodListing (site k)) →
      crawlFrom base site (fuel + m) p items visited =
        crawlFrom base site fuel (p + m) (accumulate base site m p items)
          (visited ++ List.range' p m)
  | 0, p, fuel, items, visited, _ => by simp [accumulate]
  | m + 1, p, fuel, items, visited, h => by
    obtain ⟨doc, hdoc, hne⟩ := h p (Nat.le_refl p) (by omega)
    have hemp : doc.products.isEmpty = false := by
      cases hp : doc.products
      · exact absurd (hp ▸ rfl) hne
      · rfl
    have hstep : crawlFrom base site (fuel + (m + 1)) p items visited =
        crawlFrom base site (fuel + m) (p + 1)
          (process_url base (Except.ok doc) items) (visited ++ [p]) := by
      show crawlFrom base site (fuel + m + 1) p items visited = _
      simp [crawlFrom, hdoc, hemp]
    have hacc : accumulate base site (m + 1) p items =
        accumulate base site m (p + 1) (process_url base (Except.ok doc) items) := by
      rw [accumulate, hdoc]
    have harith : p + 1 + m = p + (m + 1) := by omega
    have hrng : visited ++ List.range' p (m + 1) =
        (visited ++ [p]) ++ List.range' (p + 1) m := by
      rw [List.range'_succ]
      simp
    rw [hstep, hacc, hrng, ← harith]
    exact crawlFrom_reach base site m (p + 1) fuel
      (process_url base (Except.ok doc) items) (visited ++ [p])
      (fun k hk1 hk2 => h k (by omega) (by omega))

/-- C7.  When the controller's fetch of page `n` fails after pages
`1..n-1` each fetched successfully with products, the run stops at once in
the aborted state, the accumulator holds exactly the items of pages
`1..n-1`, and that partial accumulator is still handed to the writer — and
written whenever it is non-empty. -/
theorem C7_abort_preserves_partial (site : Nat → Except Unit Page)
    (n fuel : Nat) (hn : 1 ≤ n) (hfuel : n ≤ fuel)
    (hgood : ∀ k, 1 ≤ k → k < n → goodListing (site k))
    (hfail : site n = Except.error ()) :
    (runPipeline site fuel).state = CrawlState.aborted ∧
    (runPipeline site fuel).visited = List.range' 1 n ∧
    (runPipeline site fuel).items = accumulate defaultTarget site (n - 1) 1 [] ∧
    (runPipeline site fuel).output =
      export_data (accumulate defaultTarget site (n - 1) 1 []) ∧
    (accumulate defaultTarget site (n - 1) 1 [] ≠ [] →
      ∃ bytes, (runPipeline site fuel).output = some bytes) := by
  have hm : fuel = (fuel - (n - 1)) + (n - 1) := by omega
  have hreach := crawlFrom_reach defaultTarget site (n - 1) 1 (fuel - (n - 1)) [] []
    (fun k hk1 hk2 => hgood k hk1 (by omega))
  have hcrawl : crawl defaultTarget site fuel =
      crawlFrom defaultTarget site (fuel - (n - 1)) n
        (accumulate defaultTarget site (n - 1) 1 []) (List.range' 1 (n - 1)) := by
    have h1 : 1 + (n - 1) = n := by omega
    rw [crawl]
    conv_lhs => rw [hm]
    rw [hreach, h1, List.nil_append]
  have hf : fuel - (n - 1) = (fuel - (n - 1) - 1) + 1 := by omega
  have hlast : crawlFrom defaultTarget site (fuel - (n - 1)) n
      (accumulate defaultTarget site (n - 1) 1 []) (List.range' 1 (n - 1)) =
      ⟨List.range' 1 (n - 1) ++ [n], accumulate defaultTarget site (n - 1) 1 [],
        CrawlState.aborted⟩ := by
    rw [hf]
    simp [crawlFrom, hfail]
  have hrng : List.range' 1 (n - 1) ++ [n] = List.range' 1 n := by
    have h2 : n = (n - 1) + 1 := by omega
    conv_rhs => rw [h2]
    rw [List.range'_1_concat]
    simp
    omega
  have hrun : runPipeline site fuel =
      ⟨List.range' 1 n, accumulate defaultTarget site (n - 1) 1 [],
        CrawlState.aborted,
        export_data (accumulate defaultTarget site (n - 1) 1 [])⟩ := by
    rw [runPipeline, hcrawl, hlast, hrng]
  refine ⟨by rw [hrun], by rw [hrun], by rw [hrun], by rw [hrun], ?_⟩
  intro hne
  rw [hrun]
  exact export_data_of_ne_nil _ hne

/-- C8.  If page `n` is the first page whose fetch fails or whose document
has zero product nodes, the pagination loop terminates after requesting
exactly pages `1..n` in increasing order (and the outcome no longer depends
on the fuel bound); when page `n` fetched successfully with zero products,
the run ends in clean completion (`done`, not `aborted`) with the items of
pages `1..n-1` accumulated. -/
theorem C8_pagination_terminates (site : Nat → Except Unit Page)
    (n fuel : Nat) (hn : 1 ≤ n) (hfuel : n ≤ fuel)
    (hgood : ∀ k, 1 ≤ k → k < n → goodListing (site k))
    (hbad : site n = Except.error () ∨
      ∃ doc, site n = Except.ok doc ∧ doc.products = []) :
    (runPipeline site fuel).visited = List.range' 1 n ∧
    (runPipeline site fuel).state ≠ CrawlState.outOfFuel ∧
    (∀ fuel2, n ≤ fuel2 → runPipeline site fuel2 = runPipeline site fuel) ∧
    (∀ doc, site n = Except.ok doc → doc.products = [] →
      (runPipeline site fuel).state = CrawlState.done ∧
      (runPipeline site fuel).items =
        accumulate defaultTarget site (n - 1) 1 []) := by
  have hrng : List.range' 1 (n - 1) ++ [n] = List.range' 1 n := by
    have h2 : n = (n - 1) + 1 := by omega
    conv_rhs => rw [h2]
    rw [List.range'_1_concat]
    simp
    omega
  have hgen : ∀ st, (∀ f', crawlFrom defaultTarget site (f' + 1) n
        (accumulate defaultTarget site (n - 1) 1 []) (List.range' 1 (n - 1)) =
        ⟨List.range' 1 (n - 1) ++ [n],
          accumulate defaultTarget site (n - 1) 1 [], st⟩) →
      ∀ f, n ≤ f → runPipeline site f =
        ⟨List.range' 1 n, accumulate defaultTarget site (n - 1) 1 [], st,
          export_data (accumulate defaultTarget site (n - 1) 1 [])⟩ := by
    intro st hstep f hf
    have hm : f = (f - (n - 1)) + (n - 1) := by omega
    have hreach := crawlFrom_reach defaultTarget site (n - 1) 1 (f - (n - 1)) [] []
      (fun k hk1 hk2 => hgood k hk1 (by omega))
    have h1 : 1 + (n - 1) = n := by omega
    have hcrawl : crawl defaultTarget site f =
        crawlFrom defaultTarget site (f - (n - 1)) n
          (accumulate defaultTarget site (n - 1) 1 []) (List.range' 1 (n - 1)) := by
      rw [crawl]
      conv_lhs => rw [hm]
      rw [hreach, h1, List.nil_append]
    have hf' : f - (n - 1) = (f - (n - 1) - 1) + 1 := by omega
    rw [runPipeline, hcrawl, hf', hstep, hrng]
  rcases hbad with hfail | ⟨doc, hdoc, hprod⟩
  · have hrun := hgen CrawlState.aborted
      (fun f' => by simp [crawlFrom, hfail])
    refine ⟨by rw [hrun fuel hfuel], by rw [hrun fuel hfuel]; simp, ?_, ?_⟩
    · intro fuel2 h2
      rw [hrun fuel2 h2, hrun fuel hfuel]
    · intro doc hdoc hp
      rw [hfail] at hdoc
      cases hdoc
  · have hemp : doc.products.isEmpty = true := by
      rw [hprod]
      rfl
    have hrun := hgen CrawlState.done
      (fun f' => by simp [crawlFrom, hdoc, hemp])
    refine ⟨by rw [hrun fuel hfuel], by rw [hrun fuel hfuel]; simp, ?_, ?_⟩
    · intro fuel2 h2
      rw [hrun fuel2 h2, hrun fuel hfuel]
    · intro doc' hdoc' hp'
      exact ⟨by rw [hrun fuel hfuel], by rw [hrun fuel hfuel]⟩

/-- Fixture for C7: page 1 lists two well-formed products, every later fetch
fails. -/
def abortSite : Nat → Except Unit Page :=
  fun n =>
    if n = 1 then Except.ok ⟨some ["Home", "Books"], none, [goodProduct, goodProduct]⟩
    else Except.error ()

/-- C7 witness: the theorem applied to the two-item fixture whose page 2
fetch fails. -/
theorem C7_abort_preserves_partial_witness :
    (runPipeline abortSite 5).state = CrawlState.aborted ∧
    (runPipeline abortSite 5).visited = List.range' 1 2 ∧
    (runPipeline abortSite 5).items = accumulate defaultTarget abortSite 1 1 [] ∧
    (runPipeline abortSite 5).output =
      export_data (accumulate defaultTarget abortSite 1 1 []) ∧
    (accumulate defaultTarget abortSite 1 1 [] ≠ [] →
      ∃ bytes, (runPipeline abortSite 5).output = some bytes) :=
  C7_abort_preserves_partial abortSite 2 5 (by omega) (by omega)
    (fun k hk1 hk2 => by
      have hk : k = 1 := by omega
      subst hk
      exact ⟨⟨some ["Home", "Books"], none, [goodProduct, goodProduct]⟩, rfl, by simp⟩)
    rfl

/-- Fixture for C8: the spec's 3-page run (2 items, then 1 item, then an
empty page). -/
def cleanSite : Nat → Except Unit Page :=
  fun n =>
    if n = 1 then Except.ok ⟨none, none, [goodProduct, goodProduct]⟩
    else if n = 2 then Except.ok ⟨none, none, [goodProduct]⟩
    else if n = 3 then Except.ok ⟨none, none, []⟩
    else Except.error ()

/-- C8 witness: the theorem applied to the 3-page fixture whose page 3 is
empty. -/
theorem C8_pagination_terminates_witness :
    (runPipeline cleanSite 7).visited = List.range' 1 3 ∧
    (runPipeline cleanSite 7).state ≠ CrawlState.outOfFuel ∧
    (∀ fuel2, 3 ≤ fuel2 → runPipeline cleanSite fuel2 = runPipeline cleanSite 7) ∧
    (∀ doc, cleanSite 3 = Except.ok doc → doc.products = [] →
      (runPipeline cleanSite 7).state = CrawlState.done ∧
      (runPipeline cleanSite 7).items = accumulate defaultTarget cleanSite 2 1 []) :=
  C8_pagination_terminates cleanSite 3 7 (by omega) (by omega)
    (fun k hk1 hk2 => by
      interval_cases k
      · exact ⟨⟨none, none, [goodProduct, goodProduct]⟩, rfl, by simp⟩
      · exact ⟨⟨none, none, [goodProduct]⟩, rfl, by simp⟩)
    (Or.inr ⟨⟨none, none, []⟩, rfl, rfl⟩)
